import Mathlib

/-!
Verification of the transaction-sending subsystem of the dariappbackend
repository: the fee engine (app/services/fee_service.py), the relay
orchestrator (app/services/blockchain_service.py), the transaction ledger
(app/crud/transaction.py over app/models/transaction.py), and the send
endpoint's recipient resolution (app/api/v1/transactions.py).

Python `Decimal` values (amounts, prices, fees) are embedded as rationals:
on the magnitudes these functions handle, `Decimal` arithmetic under the
default 28-digit context is exact, and `Decimal.quantize` under the default
context rounds half-to-even, which is modelled explicitly below.
Machine balances and gas quantities (wei) are embedded as naturals.
-/

namespace Dari

/-! ## Fee engine — `FeeService` in app/services/fee_service.py -/

namespace FeeService

def GASLESS_MODE : Bool := true

def DOMESTIC_FEE_PERCENT : ℚ := 1 / 100

def INTERNATIONAL_FEE_PERCENT : ℚ := 2 / 100

def MIN_PLATFORM_FEE : ℚ := 10 / 100

def MAX_PLATFORM_FEE : ℚ := 50

def FREE_THRESHOLD : ℚ := 1

/-- Round a rational to the nearest integer with ties to the even integer:
the rounding performed by Python `Decimal.quantize` under the default
context (`ROUND_HALF_EVEN`). -/
def roundHalfEven (q : ℚ) : ℤ :=
  if q - ⌊q⌋ < 1 / 2 then ⌊q⌋
  else if 1 / 2 < q - ⌊q⌋ then ⌊q⌋ + 1
  else if ⌊q⌋ % 2 = 0 then ⌊q⌋ else ⌊q⌋ + 1

/-- `x.quantize(Decimal("0.000001"))` (fee_service.py line 69): round to a
multiple of 10⁻⁶, ties to even. -/
def quantize6 (q : ℚ) : ℚ :=
  (roundHalfEven (q * 1000000) : ℚ) / 1000000

/-- Round half away from zero. Modelled from the spec: the spec's §4.2
asserts "round-half-away-from-zero semantics" for token-unit fee
quantities; this definition renders those words so they can be compared
with the rounding the source actually performs (`roundHalfEven`). -/
def roundHalfAwayFromZero (q : ℚ) : ℤ :=
  if 0 ≤ q then ⌊q + 1 / 2⌋ else ⌈q - 1 / 2⌉

/-- Rounding to a multiple of 10⁻⁶ with ties away from zero, i.e. the
quantization step as the spec's words describe it. -/
def quantize6Away (q : ℚ) : ℚ :=
  (roundHalfAwayFromZero (q * 1000000) : ℚ) / 1000000

/-- `FeeService.calculate_platform_fee` (fee_service.py lines 28-69).
The guard on line 66 (`if token_price_usd > 0 else Decimal("0")`) is the
source's own division guard. -/
def calculate_platform_fee (amount : ℚ) (is_international : Bool)
    (token_price_usd : ℚ) : ℚ :=
  let amount_usd := amount * token_price_usd
  if amount_usd < FREE_THRESHOLD then 0
  else
    let fee_percent :=
      if is_international then INTERNATIONAL_FEE_PERCENT else DOMESTIC_FEE_PERCENT
    let fee_usd := amount_usd * fee_percent
    let fee_usd_clamped := max MIN_PLATFORM_FEE (min fee_usd MAX_PLATFORM_FEE)
    let fee_tokens :=
      if 0 < token_price_usd then fee_usd_clamped / token_price_usd else 0
    quantize6 fee_tokens

/-- The platform fee exactly as `calculate_platform_fee` computes it but
without the final `quantize` call: the quantity to which the rounding step
is applied. -/
def rawPlatformFee (amount : ℚ) (is_international : Bool)
    (token_price_usd : ℚ) : ℚ :=
  let amount_usd := amount * token_price_usd
  if amount_usd < FREE_THRESHOLD then 0
  else
    let fee_percent :=
      if is_international then INTERNATIONAL_FEE_PERCENT else DOMESTIC_FEE_PERCENT
    let fee_usd := amount_usd * fee_percent
    let fee_usd_clamped := max MIN_PLATFORM_FEE (min fee_usd MAX_PLATFORM_FEE)
    if 0 < token_price_usd then fee_usd_clamped / token_price_usd else 0

/-- A variant of `calculate_platform_fee` whose final rounding follows the
spec's words (half away from zero) instead of the source's half-even; used
only to witness that the two disagree. -/
def calculate_platform_fee_specRounding (amount : ℚ) (is_international : Bool)
    (token_price_usd : ℚ) : ℚ :=
  quantize6Away (rawPlatformFee amount is_international token_price_usd)

structure GasEstimates where
  estimated_gas : ℚ
  gas_price_gwei : ℚ
  gas_fee_matic : ℚ
  gas_fee_usd : ℚ
deriving DecidableEq

/-- `FeeService.estimate_gas_fee` (fee_service.py lines 71-106). -/
def estimate_gas_fee (token : String) (estimated_gas : ℕ) : GasEstimates :=
  let gas_price_gwei : ℚ := 30
  let g : ℕ := if token = "USDC" then 65000 else estimated_gas
  let gas_fee_matic := (g : ℚ) * gas_price_gwei / 1000000000
  { estimated_gas := (g : ℚ)
    gas_price_gwei := gas_price_gwei
    gas_fee_matic := gas_fee_matic
    gas_fee_usd := gas_fee_matic * (50 / 100) }

structure FeeBreakdown where
  platform_fee : ℚ
  gas_fee : ℚ
  actual_gas_fee : ℚ
  total_fee : ℚ
  estimated_gas : ℚ
  gasless_mode : Bool
deriving DecidableEq

/-- `FeeService.calculate_total_fee` (fee_service.py lines 108-170).
`estimated_gas or 21000` on line 140 treats both `None` and `0` as absent;
division by `token_price_usd` on line 147 mirrors the source, which assumes
a positive token price on the non-MATIC path. -/
def calculate_total_fee (amount : ℚ) (token : String) (is_international : Bool)
    (token_price_usd : ℚ) (estimated_gas : Option ℕ) (gasless : Option Bool) :
    FeeBreakdown :=
  let is_gasless := gasless.getD GASLESS_MODE
  let platform_fee := calculate_platform_fee amount is_international token_price_usd
  let g : ℕ :=
    match estimated_gas with
    | none => 21000
    | some n => if n = 0 then 21000 else n
  let gas_estimates := estimate_gas_fee token g
  let gas_fee_tokens :=
    if token = "MATIC" then gas_estimates.gas_fee_matic
    else gas_estimates.gas_fee_usd / token_price_usd
  let user_gas_fee := if is_gasless then 0 else gas_fee_tokens
  { platform_fee := platform_fee
    gas_fee := user_gas_fee
    actual_gas_fee := gas_fee_tokens
    total_fee := platform_fee + user_gas_fee
    estimated_gas := gas_estimates.estimated_gas
    gasless_mode := is_gasless }

/-- `FeeService.is_international_transaction` (fee_service.py lines 172-187):
`None` or empty country codes default to domestic. -/
def is_international_transaction (from_country to_country : Option String) : Bool :=
  match from_country, to_country with
  | some f, some t =>
      if f = "" ∨ t = "" then false else f.toUpper ≠ t.toUpper
  | _, _ => false

end FeeService

/-! ## Transaction ledger — app/crud/transaction.py over app/models/transaction.py -/

/-- `TransactionStatus` (app/models/transaction.py lines 9-13). -/
inductive TxStatus where
  | pending
  | confirmed
  | failed
  | cancelled
deriving DecidableEq, Repr

/-- One persisted `transactions` row, restricted to the columns the ledger
operations touch.  `tx_hash` is the mapped column declared
`unique=True` (app/models/transaction.py line 44).  Timestamps are ticks. -/
structure TxRow where
  id : ℕ
  status : TxStatus
  tx_hash : Option String
  confirmed_at : Option ℕ
deriving DecidableEq, Repr

/-- The database's uniqueness constraint on `tx_hash`
(app/models/transaction.py line 44): no two rows may persist the same
non-null hash.  Checked at commit time. -/
def txHashConstraintOk (db : List TxRow) : Bool :=
  db.all fun r1 =>
    db.all fun r2 =>
      r1.id == r2.id || r1.tx_hash.isNone || r1.tx_hash != r2.tx_hash

/-- `update_transaction_status` (app/crud/transaction.py lines 82-105),
acting on the persisted state.  The status is assigned unconditionally
(line 97).  Line 99 assigns `db_transaction.transaction_hash`, which is not
a mapped column of the `Transaction` model — the column is `tx_hash` — so
the assignment creates a transient Python attribute and the persisted
`tx_hash` is unchanged; accordingly the row's `tx_hash` field is not
modified here.  `now` stands for `datetime.utcnow()` (line 101).
Returns the new table plus the refreshed row (`None` if the id is absent,
line 95). -/
def update_transaction_status (db : List TxRow) (transaction_id : ℕ)
    (status : TxStatus) (transaction_hash : Option String) (now : ℕ) :
    List TxRow × Option TxRow :=
  match db.find? (fun r => r.id == transaction_id) with
  | none => (db, none)
  | some row =>
      let updated : TxRow :=
        { row with
          status := status
          confirmed_at :=
            if status = TxStatus.confirmed then some now else row.confirmed_at }
      (db.map fun r => if r.id == transaction_id then updated else r, some updated)

/-- Database error surfaced by a failed commit. -/
inductive DbError where
  | integrityError
deriving DecidableEq, Repr

/-- `update_transaction_status` followed by `db.commit()` (line 103): the
commit raises `IntegrityError` if the resulting table violates the
`tx_hash` uniqueness constraint, and persists it otherwise. -/
def update_transaction_status_commit (db : List TxRow) (transaction_id : ℕ)
    (status : TxStatus) (transaction_hash : Option String) (now : ℕ) :
    Except DbError (List TxRow × Option TxRow) :=
  let result := update_transaction_status db transaction_id status transaction_hash now
  if txHashConstraintOk result.1 then Except.ok result
  else Except.error DbError.integrityError

/-! ## Relay orchestrator — app/services/blockchain_service.py

The chain client (web3) is the spec's §6 black box; it is embedded as an
oracle `Chain` giving balances, the gas price, per-account transaction
counts and submission hashes.  Each orchestrator function returns its
result together with the ordered list of chain-client calls it makes. -/

/-- A raw transaction as the orchestrator builds it.  `data = none` is a
bare native-currency (MATIC) transfer; `data = some (recipient, amountWei)`
is an ERC-20 `transfer(recipient, amountWei)` call sent to the token
contract in `toAddr`. -/
structure EthTx where
  toAddr : String
  value : ℕ
  gas : ℕ
  gasPrice : ℕ
  nonce : ℕ
  data : Option (String × ℕ)
deriving DecidableEq, Repr

/-- Observable chain-client calls, recorded in program order. -/
inductive ChainEvent where
  | getBalance (addr : String)
  | getGasPrice
  | getTransactionCount (addr : String) (pending : Bool)
  | buildTx (tx : EthTx)
  | sendRawTransaction (tx : EthTx)
deriving DecidableEq, Repr

/-- The black-box chain client: balances and transaction counts per
address (`txCount addr pending` is `get_transaction_count`, with
`pending = true` for the `'pending'` block tag), the current gas price,
and the hash the node returns for a submitted transaction. -/
structure Chain where
  balance : String → ℕ
  gasPrice : ℕ
  txCount : String → Bool → ℕ
  hashOf : EthTx → String

/-- Typed rendering of the exception raised at
blockchain_service.py line 615 when the relayer cannot cover the gas. -/
inductive RelayErr where
  | relayerUnderfunded
deriving DecidableEq, Repr

/-- The result dict of the send functions: `success`, the value-transfer
hash, the `gasless` flag, the advance hash (`gas_transfer_tx`), and the
typed error captured by the caller's `except` block on failure. -/
structure SendResult where
  success : Bool
  txHash : Option String
  gasless : Option Bool
  gasTransferTx : Option String
  err : Option RelayErr
deriving DecidableEq, Repr

/-- Python `int(x)` on a rational: truncation toward zero. -/
def pyInt (q : ℚ) : ℤ :=
  if 0 ≤ q then ⌊q⌋ else ⌈q⌉

/-- `int(amount * (10 ** decimals))`: a token amount in base units. -/
def toBaseUnits (amount : ℚ) (decimals : ℕ) : ℕ :=
  (pyInt (amount * 10 ^ decimals)).toNat

/-- `_send_with_user_gas` (blockchain_service.py lines 540-571): the direct
path, the user's account paying gas.  Program order: gas price, user nonce
(latest block), build, sign, submit. -/
def sendWithUserGas (c : Chain) (fromAddr toAddr : String) (amount : ℚ)
    (tokenContract : String) (decimals : ℕ) : SendResult × List ChainEvent :=
  let amountWei := toBaseUnits amount decimals
  let gasPrice := c.gasPrice
  let nonce := c.txCount fromAddr false
  let tx : EthTx :=
    { toAddr := tokenContract, value := 0, gas := 100000, gasPrice := gasPrice
      nonce := nonce, data := some (toAddr, amountWei) }
  ({ success := true, txHash := some (c.hashOf tx), gasless := some false
     gasTransferTx := none, err := none },
   [ChainEvent.getGasPrice, ChainEvent.getTransactionCount fromAddr false,
    ChainEvent.buildTx tx, ChainEvent.sendRawTransaction tx])

/-- `_send_with_relayer_gas` (blockchain_service.py lines 574-678): the
sponsored path.  Program order: relayer balance (line 600), gas price
(601); `gas_to_send = int(total_gas_cost * 1.3)` (607), the float literal
`1.3` modelled as 13/10 with `int` truncation as natural floor division;
underfunded check and raise (612-615) before anything is submitted; relayer
nonce (618); advance submitted without waiting (630); user nonce with the
`'pending'` tag (646); token transfer built (652) and submitted (665). -/
def sendWithRelayerGas (c : Chain) (fromAddr toAddr : String) (amount : ℚ)
    (tokenContract : String) (relayerAddr : String) (decimals : ℕ) :
    Except RelayErr SendResult × List ChainEvent :=
  let relayerBalance := c.balance relayerAddr
  let gasPrice := c.gasPrice
  let gasForMaticTransfer := 21000
  let gasForTokenTransfer := 100000
  let totalGasCost := gasPrice * (gasForMaticTransfer + gasForTokenTransfer)
  let gasToSend := totalGasCost * 13 / 10
  if relayerBalance < gasToSend then
    (Except.error RelayErr.relayerUnderfunded,
     [ChainEvent.getBalance relayerAddr, ChainEvent.getGasPrice])
  else
    let relayerNonce := c.txCount relayerAddr false
    let gasTx : EthTx :=
      { toAddr := fromAddr, value := gasToSend, gas := gasForMaticTransfer
        gasPrice := gasPrice, nonce := relayerNonce, data := none }
    let amountWei := toBaseUnits amount decimals
    let userNonce := c.txCount fromAddr true
    let tokenTx : EthTx :=
      { toAddr := tokenContract, value := 0, gas := gasForTokenTransfer
        gasPrice := gasPrice, nonce := userNonce, data := some (toAddr, amountWei) }
    (Except.ok
      { success := true, txHash := some (c.hashOf tokenTx), gasless := some true
        gasTransferTx := some (c.hashOf gasTx), err := none },
     [ChainEvent.getBalance relayerAddr, ChainEvent.getGasPrice,
      ChainEvent.getTransactionCount relayerAddr false,
      ChainEvent.sendRawTransaction gasTx,
      ChainEvent.getTransactionCount fromAddr true,
      ChainEvent.buildTx tokenTx,
      ChainEvent.sendRawTransaction tokenTx])

/-- `send_token_transaction_with_relayer_fallback`
(blockchain_service.py lines 492-537): fetch the sender's native balance
(509) and the gas price (510); `estimated_gas_cost = gas_price * 100000`
(511); `if user_balance >= estimated_gas_cost` take the direct path, else
the sponsored path (513-524).  The surrounding `try` converts the
sponsored path's raise into `{"success": False, "error": ...}` (529-537). -/
def send_token_transaction_with_relayer_fallback (c : Chain)
    (fromAddr toAddr : String) (amount : ℚ) (tokenContract : String)
    (relayerAddr : String) (decimals : ℕ) : SendResult × List ChainEvent :=
  let userBalance := c.balance fromAddr
  let gasPrice := c.gasPrice
  let estimatedGasCost := gasPrice * 100000
  let pre := [ChainEvent.getBalance fromAddr, ChainEvent.getGasPrice]
  if estimatedGasCost ≤ userBalance then
    let r := sendWithUserGas c fromAddr toAddr amount tokenContract decimals
    (r.1, pre ++ r.2)
  else
    match sendWithRelayerGas c fromAddr toAddr amount tokenContract relayerAddr decimals with
    | (Except.ok r, evs) => (r, pre ++ evs)
    | (Except.error e, evs) =>
        ({ success := false, txHash := none, gasless := none
           gasTransferTx := none, err := some e }, pre ++ evs)

/-! ## Balance queries — blockchain_service.py lines 51-94

The underlying web3 fetch is a black box that either yields a wei balance
or raises; it is embedded as an `Except` value consumed by the function. -/

/-- `get_token_balance` (blockchain_service.py lines 51-79): the whole
body, fetch and decimal conversion, sits inside `try`; `except Exception`
returns `0.0`. -/
def get_token_balance (fetch : Except String ℕ) (decimals : ℕ) : ℚ :=
  match fetch with
  | Except.ok balanceWei => (balanceWei : ℚ) / 10 ^ decimals
  | Except.error _ => 0

/-- `get_matic_balance` (blockchain_service.py lines 82-94): wei converted
at 10¹⁸ per MATIC; any exception yields `0.0`. -/
def get_matic_balance (fetch : Except String ℕ) : ℚ :=
  match fetch with
  | Except.ok balanceWei => (balanceWei : ℚ) / 10 ^ 18
  | Except.error _ => 0

/-! ## Send endpoint, recipient resolution and self-transfer guard —
`send_transaction` in app/api/v1/transactions.py lines 318-474

The endpoint state is the authenticated user plus the read-only lookups it
performs: wallet by user id (app/crud/wallet), active alias resolution
(`resolve_address` in app/crud/address_resolver.py, which lowercases the
`username@dari` handle before lookup), and user by phone number.  The
endpoint's later effects — key decryption (line 454), ledger-row creation
(line 474) and chain submission (line 511 onward) — are recorded as
events so that "rejected before" is the absence of those events. -/

/-- Effects of the send endpoint that follow recipient resolution. -/
inductive ApiEvent where
  | decryptKey
  | openLedgerRow
  | submitToChain
deriving DecidableEq, Repr

/-- The HTTP rejections raised before any of the `ApiEvent` effects. -/
inductive SendErr where
  | pinNotSet
  | invalidPin
  | walletNotFound
  | dariNotFound
  | phoneNotFound
  | recipientNoWallet
  | selfTransfer
deriving DecidableEq, Repr

/-- Read-only state the endpoint consults while resolving a recipient. -/
structure DariDb where
  currentUserId : ℕ
  hasPinHash : Bool
  pinOk : Bool
  walletByUser : ℕ → Option String
  aliasWallet : String → Option String
  userByPhone : String → Option ℕ

/-- Python `str.lower()` on the ASCII identifiers this endpoint handles,
rendered over the character list. -/
def pyLower (s : String) : String :=
  String.mk (s.data.map Char.toLower)

/-- Substring containment over character lists: Python's `sub in s`. -/
def listContainsSub (sub : List Char) : List Char → Bool
  | [] => sub.isEmpty
  | c :: cs => sub.isPrefixOf (c :: cs) || listContainsSub sub cs

/-- Python `sub in s`. -/
def pyContains (sub s : String) : Bool :=
  listContainsSub sub.data s.data

/-- Python `s.startswith(p)`. -/
def pyStartsWith (p s : String) : Bool :=
  p.data.isPrefixOf s.data

/-- `'@dari' in to_address.lower()` (transactions.py line 355). -/
def isDariForm (s : String) : Bool :=
  pyContains ("@dari") (pyLower s)

/-- The destination the endpoint resolves for a given recipient
identifier: alias form through the alias table, phone form through the
owning account's wallet, anything else used as a raw address. -/
def resolvedDestination (db : DariDb) (toAddr : String) : Option String :=
  if isDariForm toAddr then db.aliasWallet (pyLower toAddr)
  else if pyStartsWith ("+") toAddr then
    (db.userByPhone toAddr).bind db.walletByUser
  else some toAddr

/-- `send_transaction` (transactions.py lines 318-474) up to and including
the phase that decrypts the key, opens the ledger row and submits: PIN
checks (326-337), wallet lookup (340-345), recipient resolution with the
three self-transfer guards — alias branch comparing addresses
case-insensitively (372), phone branch comparing user ids (403), raw
branch comparing addresses case-insensitively (410) — and then the effect
phase (the intervening fee computation and token lookup are read-only and
emit none of the modelled effects).  Returns the resolved destination on
the proceed path. -/
def send_transaction (db : DariDb) (toAddr : String) :
    Except SendErr String × List ApiEvent :=
  let proceed := fun (dest : String) =>
    (Except.ok dest,
     [ApiEvent.decryptKey, ApiEvent.openLedgerRow, ApiEvent.submitToChain])
  if ¬ db.hasPinHash then (Except.error SendErr.pinNotSet, [])
  else if ¬ db.pinOk then (Except.error SendErr.invalidPin, [])
  else
    match db.walletByUser db.currentUserId with
    | none => (Except.error SendErr.walletNotFound, [])
    | some senderAddr =>
        if isDariForm toAddr then
          match db.aliasWallet (pyLower toAddr) with
          | none => (Except.error SendErr.dariNotFound, [])
          | some dest =>
              if pyLower dest = pyLower senderAddr then
                (Except.error SendErr.selfTransfer, [])
              else proceed dest
        else if pyStartsWith ("+") toAddr then
          match db.userByPhone toAddr with
          | none => (Except.error SendErr.phoneNotFound, [])
          | some recipientId =>
              match db.walletByUser recipientId with
              | none => (Except.error SendErr.recipientNoWallet, [])
              | some dest =>
                  if recipientId = db.currentUserId then
                    (Except.error SendErr.selfTransfer, [])
                  else proceed dest
        else if pyLower toAddr = pyLower senderAddr then
          (Except.error SendErr.selfTransfer, [])
        else proceed toAddr

/-! ## Fixtures used by witnesses and counterexamples -/

def exampleConfirmedRow : TxRow :=
  { id := 1, status := TxStatus.confirmed, tx_hash := some ("0xaaa"), confirmed_at := some 0 }

def exampleLedger : List TxRow :=
  [{ id := 1, status := TxStatus.confirmed, tx_hash := some ("0xabc"), confirmed_at := some 0 },
   { id := 2, status := TxStatus.pending, tx_hash := none, confirmed_at := none }]

def zeroBalanceChain : Chain :=
  { balance := fun _ => 0
    gasPrice := 30000000000
    txCount := fun _ _ => 0
    hashOf := fun _ => "0xfeed" }

def boundaryChain : Chain :=
  { balance := fun a => if a = "0xuser" then 3000000000000000 else 10 ^ 19
    gasPrice := 30000000000
    txCount := fun _ _ => 0
    hashOf := fun _ => "0xfeed" }

def fundedRelayerChain : Chain :=
  { balance := fun a => if a = "0xrelayer" then 10 ^ 19 else 0
    gasPrice := 30000000000
    txCount := fun _ _ => 0
    hashOf := fun _ => "0xfeed" }

def exampleSendDb : DariDb :=
  { currentUserId := 1
    hasPinHash := true
    pinOk := true
    walletByUser := fun u => if u = 1 then some ("0xAbC") else none
    aliasWallet := fun _ => none
    userByPhone := fun _ => none }

/-! ## General lemmas about the half-even rounding step -/

theorem floor_le_roundHalfEven (q : ℚ) : ⌊q⌋ ≤ FeeService.roundHalfEven q := by
  unfold FeeService.roundHalfEven
  split_ifs <;> omega

theorem roundHalfEven_le_floor_succ (q : ℚ) :
    FeeService.roundHalfEven q ≤ ⌊q⌋ + 1 := by
  unfold FeeService.roundHalfEven
  split_ifs <;> omega

theorem roundHalfEven_mono {a b : ℚ} (h : a ≤ b) :
    FeeService.roundHalfEven a ≤ FeeService.roundHalfEven b := by
  rcases lt_or_eq_of_le (Int.floor_le_floor h) with hf | hf
  · calc FeeService.roundHalfEven a ≤ ⌊a⌋ + 1 := roundHalfEven_le_floor_succ a
      _ ≤ ⌊b⌋ := by omega
      _ ≤ FeeService.roundHalfEven b := floor_le_roundHalfEven b
  · unfold FeeService.roundHalfEven
    rw [hf]
    split_ifs <;> first | omega | (exfalso; linarith)

theorem quantize6_mono {a b : ℚ} (h : a ≤ b) :
    FeeService.quantize6 a ≤ FeeService.quantize6 b := by
  unfold FeeService.quantize6
  have hr : FeeService.roundHalfEven (a * 1000000) ≤
      FeeService.roundHalfEven (b * 1000000) :=
    roundHalfEven_mono (by linarith)
  have hrq : ((FeeService.roundHalfEven (a * 1000000) : ℤ) : ℚ) ≤
      ((FeeService.roundHalfEven (b * 1000000) : ℤ) : ℚ) := by exact_mod_cast hr
  linarith

theorem roundHalfEven_dist (q : ℚ) :
    |(FeeService.roundHalfEven q : ℚ) - q| ≤ 1 / 2 := by
  have h1 : ((⌊q⌋ : ℤ) : ℚ) ≤ q := Int.floor_le q
  have h2 : q < ⌊q⌋ + 1 := Int.lt_floor_add_one q
  unfold FeeService.roundHalfEven
  split_ifs <;> (rw [abs_le]; push_cast; constructor <;> linarith)

theorem roundHalfEven_tie_even (q : ℚ)
    (h : |(FeeService.roundHalfEven q : ℚ) - q| = 1 / 2) :
    FeeService.roundHalfEven q % 2 = 0 := by
  have h1 : ((⌊q⌋ : ℤ) : ℚ) ≤ q := Int.floor_le q
  have h2 : q < ⌊q⌋ + 1 := Int.lt_floor_add_one q
  unfold FeeService.roundHalfEven at h ⊢
  split_ifs at h ⊢ with c1 c2 c3
  · rw [abs_of_nonpos (by linarith)] at h
    exfalso; linarith
  · rw [abs_of_nonneg (by push_cast; linarith)] at h
    push_cast at h
    exfalso; linarith
  · exact c3
  · omega

theorem quantize6_zero : FeeService.quantize6 0 = 0 := by
  norm_num [FeeService.quantize6, FeeService.roundHalfEven]

theorem platform_fee_eq_quantize_raw (amount : ℚ) (is_international : Bool)
    (token_price_usd : ℚ) :
    FeeService.calculate_platform_fee amount is_international token_price_usd =
      FeeService.quantize6
        (FeeService.rawPlatformFee amount is_international token_price_usd) := by
  unfold FeeService.calculate_platform_fee FeeService.rawPlatformFee
  by_cases h : amount * token_price_usd < FeeService.FREE_THRESHOLD
  · simp only [if_pos h]
    exact quantize6_zero.symm
  · simp only [if_neg h]

/-! ## Claims about the fee engine -/

/-- C6: for every amount, token price and international flag (hence for
every country pair feeding `is_international_transaction`), if the USD
value `amount * token_price_usd` is below the free threshold then
`calculate_platform_fee` returns exactly 0. -/
theorem C6_free_threshold_fee_zero (amount token_price_usd : ℚ)
    (is_international : Bool)
    (h : amount * token_price_usd < FeeService.FREE_THRESHOLD) :
    FeeService.calculate_platform_fee amount is_international token_price_usd = 0 := by
  unfold FeeService.calculate_platform_fee
  simp only [if_pos h]

/-- C6 witness: a 0.50-unit transfer of a 1-USD token is below the 1 USD
threshold and carries no platform fee, international or not. -/
theorem C6_free_threshold_fee_zero_witness :
    (1 / 2 : ℚ) * 1 < FeeService.FREE_THRESHOLD ∧
    FeeService.calculate_platform_fee (1 / 2) true 1 = 0 ∧
    FeeService.calculate_platform_fee (1 / 2) false 1 = 0 :=
  ⟨by norm_num [FeeService.FREE_THRESHOLD],
   C6_free_threshold_fee_zero (1 / 2) 1 true
     (by norm_num [FeeService.FREE_THRESHOLD]),
   C6_free_threshold_fee_zero (1 / 2) 1 false
     (by norm_num [FeeService.FREE_THRESHOLD])⟩

theorem platform_fee_mono (is_international : Bool) (p : ℚ) (hp : 0 < p)
    {a1 a2 : ℚ} (hfree : FeeService.FREE_THRESHOLD ≤ a1 * p) (h12 : a1 ≤ a2) :
    FeeService.calculate_platform_fee a1 is_international p ≤
      FeeService.calculate_platform_fee a2 is_international p := by
  have hmul : a1 * p ≤ a2 * p := mul_le_mul_of_nonneg_right h12 hp.le
  have h2 : FeeService.FREE_THRESHOLD ≤ a2 * p := le_trans hfree hmul
  have hpct : (0 : ℚ) ≤
      (if is_international then FeeService.INTERNATIONAL_FEE_PERCENT
       else FeeService.DOMESTIC_FEE_PERCENT) := by
    cases is_international <;>
      norm_num [FeeService.INTERNATIONAL_FEE_PERCENT, FeeService.DOMESTIC_FEE_PERCENT]
  simp only [FeeService.calculate_platform_fee]
  rw [if_neg (not_lt.mpr hfree), if_neg (not_lt.mpr h2), if_pos hp, if_pos hp]
  apply quantize6_mono
  have hclamp :
      max FeeService.MIN_PLATFORM_FEE
        (min (a1 * p *
          (if is_international then FeeService.INTERNATIONAL_FEE_PERCENT
           else FeeService.DOMESTIC_FEE_PERCENT)) FeeService.MAX_PLATFORM_FEE) ≤
      max FeeService.MIN_PLATFORM_FEE
        (min (a2 * p *
          (if is_international then FeeService.INTERNATIONAL_FEE_PERCENT
           else FeeService.DOMESTIC_FEE_PERCENT)) FeeService.MAX_PLATFORM_FEE) :=
    max_le_max le_rfl
      (min_le_min (mul_le_mul_of_nonneg_right hmul hpct) le_rfl)
  exact div_le_div_of_nonneg_right hclamp hp.le

/-- C7: with the token, a positive token price, the international flag and
the gas inputs fixed, and two amounts `a1 ≤ a2` whose USD value is at or
above the free threshold, the total fee of `calculate_total_fee` is
non-decreasing: the platform component is the clamped percentage, monotone
in the amount, and the gas component does not depend on the amount. -/
theorem C7_total_fee_monotone (token : String) (token_price_usd : ℚ)
    (is_international : Bool) (estimated_gas : Option ℕ) (gasless : Option Bool)
    (a1 a2 : ℚ) (hp : 0 < token_price_usd)
    (hfree : FeeService.FREE_THRESHOLD ≤ a1 * token_price_usd)
    (h12 : a1 ≤ a2) :
    (FeeService.calculate_total_fee a1 token is_international token_price_usd
        estimated_gas gasless).total_fee ≤
    (FeeService.calculate_total_fee a2 token is_international token_price_usd
        estimated_gas gasless).total_fee := by
  simp only [FeeService.calculate_total_fee]
  exact add_le_add_right (platform_fee_mono is_international token_price_usd hp hfree h12) _

/-- C7 witness: sending 10 versus 20 units of a 1-USD token (both above
the 1 USD free threshold) yields a non-decreasing total fee. -/
theorem C7_total_fee_monotone_witness :
    (0 : ℚ) < 1 ∧ FeeService.FREE_THRESHOLD ≤ (10 : ℚ) * 1 ∧ (10 : ℚ) ≤ 20 ∧
    (FeeService.calculate_total_fee 10 ("USDC") false 1 none none).total_fee ≤
      (FeeService.calculate_total_fee 20 ("USDC") false 1 none none).total_fee :=
  ⟨by norm_num, by norm_num [FeeService.FREE_THRESHOLD], by norm_num,
   C7_total_fee_monotone ("USDC") 1 false none none 10 20 (by norm_num)
     (by norm_num [FeeService.FREE_THRESHOLD]) (by norm_num)⟩

/-- C8 counterexample: the fee engine does not round half away from zero.
At amount 10.00005 of a 1-USD token on the domestic tier, the unrounded
fee is 0.1000005 token units; `calculate_platform_fee` (whose `quantize`
call uses Python's default `ROUND_HALF_EVEN`) returns 0.100000, while the
spec's round-half-away-from-zero semantics would give 0.100001. -/
theorem C8_rounding_counterexample :
    FeeService.calculate_platform_fee (1000005 / 100000) false 1 = 1 / 10 ∧
    FeeService.calculate_platform_fee_specRounding (1000005 / 100000) false 1 =
      100001 / 1000000 ∧
    FeeService.calculate_platform_fee (1000005 / 100000) false 1 ≠
      FeeService.calculate_platform_fee_specRounding (1000005 / 100000) false 1 := by
  refine ⟨?_, ?_, ?_⟩ <;>
    norm_num [FeeService.calculate_platform_fee,
      FeeService.calculate_platform_fee_specRounding, FeeService.rawPlatformFee,
      FeeService.quantize6, FeeService.quantize6Away, FeeService.roundHalfEven,
      FeeService.roundHalfAwayFromZero, FeeService.FREE_THRESHOLD,
      FeeService.DOMESTIC_FEE_PERCENT, FeeService.MIN_PLATFORM_FEE,
      FeeService.MAX_PLATFORM_FEE]

/-- C8 amended: every platform-fee quantity is rounded to the fixed 10⁻⁶
sub-unit precision using round-half-to-even (banker's) semantics — the
result is an integer multiple of 10⁻⁶ within half an ulp of the unrounded
fee, and an exact half-way value rounds to the even neighbour, not away
from zero. -/
theorem C8_rounding_half_even (amount : ℚ) (is_international : Bool)
    (token_price_usd : ℚ) :
    ∃ n : ℤ,
      FeeService.calculate_platform_fee amount is_international token_price_usd =
        (n : ℚ) / 1000000 ∧
      |(n : ℚ) -
          FeeService.rawPlatformFee amount is_international token_price_usd *
            1000000| ≤ 1 / 2 ∧
      (|(n : ℚ) -
          FeeService.rawPlatformFee amount is_international token_price_usd *
            1000000| = 1 / 2 → n % 2 = 0) := by
  refine ⟨FeeService.roundHalfEven
      (FeeService.rawPlatformFee amount is_international token_price_usd * 1000000),
    ?_, ?_, ?_⟩
  · rw [platform_fee_eq_quantize_raw]
    rfl
  · exact roundHalfEven_dist _
  · intro htie
    exact roundHalfEven_tie_even _ htie

/-- C8 amended witness: the rounding characterization at the half-way
input 10.00005 / 1 USD / domestic. -/
theorem C8_rounding_half_even_witness :
    ∃ n : ℤ,
      FeeService.calculate_platform_fee (1000005 / 100000) false 1 =
        (n : ℚ) / 1000000 ∧
      |(n : ℚ) -
          FeeService.rawPlatformFee (1000005 / 100000) false 1 * 1000000| ≤ 1 / 2 ∧
      (|(n : ℚ) -
          FeeService.rawPlatformFee (1000005 / 100000) false 1 * 1000000| = 1 / 2 →
        n % 2 = 0) :=
  C8_rounding_half_even (1000005 / 100000) false 1

/-! ## Claims about the transaction ledger -/

theorem constraint_ok_of_map (db : List TxRow) (f : TxRow → TxRow)
    (hf : ∀ r ∈ db, (f r).id = r.id ∧ (f r).tx_hash = r.tx_hash)
    (hok : txHashConstraintOk db = true) :
    txHashConstraintOk (db.map f) = true := by
  unfold txHashConstraintOk at hok ⊢
  simp only [List.all_eq_true] at hok ⊢
  intro x hx y hy
  rw [List.mem_map] at hx hy
  obtain ⟨r1, hr1, rfl⟩ := hx
  obtain ⟨r2, hr2, rfl⟩ := hy
  rw [(hf r1 hr1).1, (hf r1 hr1).2, (hf r2 hr2).1, (hf r2 hr2).2]
  exact hok r1 hr1 r2 hr2

theorem update_transaction_status_fst_constraint (db : List TxRow) (tid : ℕ)
    (st : TxStatus) (h : Option String) (now : ℕ)
    (hids : (db.map TxRow.id).Nodup) (hok : txHashConstraintOk db = true) :
    txHashConstraintOk (update_transaction_status db tid st h now).1 = true := by
  unfold update_transaction_status
  cases hfind : db.find? (fun r => r.id == tid) with
  | none => simpa using hok
  | some row0 =>
      have hmem : row0 ∈ db := List.mem_of_find?_eq_some hfind
      have hid0 : row0.id = tid := by simpa using List.find?_some hfind
      simp only []
      apply constraint_ok_of_map db _ _ hok
      intro r hr
      by_cases hc : (r.id == tid) = true
      · have hrid : r.id = tid := by simpa using hc
        have hreq : r = row0 :=
          List.inj_on_of_nodup_map hids hr hmem (by rw [hrid, hid0])
        subst hreq
        simp [hc]
      · simp [hc]

theorem update_transaction_status_snd_status (db : List TxRow) (tid : ℕ)
    (st : TxStatus) (h : Option String) (now : ℕ) (row : TxRow)
    (hrow : (update_transaction_status db tid st h now).2 = some row) :
    row.status = st := by
  unfold update_transaction_status at hrow
  cases hfind : db.find? (fun r => r.id == tid) with
  | none => rw [hfind] at hrow; simp at hrow
  | some row0 =>
      rw [hfind] at hrow
      simp only [Option.some.injEq] at hrow
      rw [← hrow]

/-- C1 counterexample: a row already CONFIRMED is not protected — a later
`update_transaction_status` call with a different status is applied, not
rejected or ignored: the stored status flips from CONFIRMED to FAILED. -/
theorem C1_terminal_overwrite_counterexample :
    (update_transaction_status [exampleConfirmedRow] 1 TxStatus.failed none 5).1 =
      [{ id := 1, status := TxStatus.failed, tx_hash := some ("0xaaa"),
         confirmed_at := some 0 }] ∧
    ((update_transaction_status [exampleConfirmedRow] 1 TxStatus.failed none 5).2.map
        TxRow.status) = some TxStatus.failed ∧
    exampleConfirmedRow.status = TxStatus.confirmed ∧
    TxStatus.failed ≠ TxStatus.confirmed := by
  refine ⟨?_, ?_, ?_, ?_⟩ <;> decide

/-- C1 amended: `update_transaction_status` applies the requested status
unconditionally — including overwriting a CONFIRMED or FAILED row with a
different status; it does not raise: on a table with distinct row ids
satisfying the `tx_hash` uniqueness constraint the commit succeeds (the
stored `tx_hash` column is never modified by this function), a missing id
yields `none`, and every returned row carries the requested status. -/
theorem C1_update_status_unconditional (db : List TxRow) (tid : ℕ)
    (st : TxStatus) (h : Option String) (now : ℕ)
    (hids : (db.map TxRow.id).Nodup) (hok : txHashConstraintOk db = true) :
    update_transaction_status_commit db tid st h now =
      Except.ok (update_transaction_status db tid st h now) ∧
    ∀ row, (update_transaction_status db tid st h now).2 = some row →
      row.status = st := by
  constructor
  · unfold update_transaction_status_commit
    simp [update_transaction_status_fst_constraint db tid st h now hids hok]
  · intro row hrow
    exact update_transaction_status_snd_status db tid st h now row hrow

/-- C1 amended witness: finalizing the already-CONFIRMED example row to
FAILED commits without error (and, per the counterexample, applies it). -/
theorem C1_update_status_unconditional_witness :
    update_transaction_status_commit [exampleConfirmedRow] 1 TxStatus.failed none 5 =
      Except.ok (update_transaction_status [exampleConfirmedRow] 1 TxStatus.failed none 5) :=
  (C1_update_status_unconditional [exampleConfirmedRow] 1 TxStatus.failed none 5
    (by decide) (by decide)).1

/-- C2: evaluating the attach path at the failing input.  Row 1 already
carries hash `0xabc`; attaching the same hash to row 2 through
`update_transaction_status` raises nothing and returns successfully, and
row 2's stored `tx_hash` column is still empty — the assignment in the
source targets the unmapped attribute `transaction_hash` rather than the
`tx_hash` column, so the uniqueness constraint is never exercised.  The
second conjunct shows the constraint itself is real: the table that a
correct attach would have produced is rejected by the commit-time check. -/
theorem C2_duplicate_attach_not_raised :
    update_transaction_status_commit exampleLedger 2 TxStatus.confirmed
        (some ("0xabc")) 7 =
      Except.ok
        ([{ id := 1, status := TxStatus.confirmed, tx_hash := some ("0xabc"),
            confirmed_at := some 0 },
          { id := 2, status := TxStatus.confirmed, tx_hash := none,
            confirmed_at := some 7 }],
         some { id := 2, status := TxStatus.confirmed, tx_hash := none,
                confirmed_at := some 7 }) ∧
    txHashConstraintOk
      [{ id := 1, status := TxStatus.confirmed, tx_hash := some ("0xabc"),
         confirmed_at := some 0 },
       { id := 2, status := TxStatus.confirmed, tx_hash := some ("0xabc"),
         confirmed_at := some 7 }] = false := by
  constructor
  · rfl
  · decide

/-! ## Claims about the relay orchestrator -/

/-- C3: in the sponsored path, when the relayer's native balance is below
the estimated gas cost of both transactions times the 1.3 safety factor,
the orchestrator surfaces the relayer-underfunded error raised before
anything is submitted: the result is a failure carrying
`relayerUnderfunded` and the chain-call trace contains no
`send_raw_transaction` at all. -/
theorem C3_relayer_fail_fast (c : Chain) (fromAddr toAddr : String) (amount : ℚ)
    (tokenContract relayerAddr : String) (decimals : ℕ)
    (huser : c.balance fromAddr < c.gasPrice * 100000)
    (hrelayer : c.balance relayerAddr < c.gasPrice * (21000 + 100000) * 13 / 10) :
    (send_token_transaction_with_relayer_fallback c fromAddr toAddr amount
        tokenContract relayerAddr decimals).1 =
      { success := false, txHash := none, gasless := none, gasTransferTx := none,
        err := some RelayErr.relayerUnderfunded } ∧
    ∀ tx, ChainEvent.sendRawTransaction tx ∉
      (send_token_transaction_with_relayer_fallback c fromAddr toAddr amount
        tokenContract relayerAddr decimals).2 := by
  have hnot : ¬ (c.gasPrice * 100000 ≤ c.balance fromAddr) := not_le.mpr huser
  simp only [send_token_transaction_with_relayer_fallback, sendWithRelayerGas]
  rw [if_neg hnot, if_pos hrelayer]
  constructor
  · rfl
  · intro tx
    simp

/-- C3 witness: relayer balance 0 and sender balance 0 at a 30 gwei gas
price yield the underfunded failure (and, by the theorem, no submission). -/
theorem C3_relayer_fail_fast_witness :
    (send_token_transaction_with_relayer_fallback zeroBalanceChain ("0xuser")
        ("0xrecv") 5 ("0xtoken") ("0xrelayer") 6).1 =
      { success := false, txHash := none, gasless := none, gasTransferTx := none,
        err := some RelayErr.relayerUnderfunded } :=
  (C3_relayer_fail_fast zeroBalanceChain ("0xuser") ("0xrecv") 5 ("0xtoken")
    ("0xrelayer") 6 (by decide) (by decide)).1

/-- C4: the sponsorship decision is `user_balance >= gas_price * 100000`:
at or above the estimate the direct path runs (the result reports
`gasless = false`, the user paying gas); strictly below it the sponsored
path runs (gasless success or the relayer-underfunded failure). -/
theorem C4_sponsorship_decision_boundary (c : Chain) (fromAddr toAddr : String)
    (amount : ℚ) (tokenContract relayerAddr : String) (decimals : ℕ) :
    (c.gasPrice * 100000 ≤ c.balance fromAddr →
      (send_token_transaction_with_relayer_fallback c fromAddr toAddr amount
          tokenContract relayerAddr decimals).1.gasless = some false) ∧
    (c.balance fromAddr < c.gasPrice * 100000 →
      (send_token_transaction_with_relayer_fallback c fromAddr toAddr amount
          tokenContract relayerAddr decimals).1.gasless = some true ∨
      (send_token_transaction_with_relayer_fallback c fromAddr toAddr amount
          tokenContract relayerAddr decimals).1.err =
        some RelayErr.relayerUnderfunded) := by
  constructor
  · intro hge
    simp only [send_token_transaction_with_relayer_fallback, sendWithUserGas]
    rw [if_pos hge]
  · intro hlt
    have hnot : ¬ (c.gasPrice * 100000 ≤ c.balance fromAddr) := not_le.mpr hlt
    simp only [send_token_transaction_with_relayer_fallback, sendWithRelayerGas]
    rw [if_neg hnot]
    by_cases hr : c.balance relayerAddr < c.gasPrice * (21000 + 100000) * 13 / 10
    · rw [if_pos hr]
      right
      rfl
    · rw [if_neg hr]
      left
      rfl

/-- C4 witness: a sender whose balance is exactly the estimated gas cost
(3·10¹⁵ wei at 30 gwei × 100000 gas) takes the direct, user-pays path. -/
theorem C4_sponsorship_decision_boundary_witness :
    boundaryChain.balance ("0xuser") = boundaryChain.gasPrice * 100000 ∧
    (send_token_transaction_with_relayer_fallback boundaryChain ("0xuser")
        ("0xrecv") 5 ("0xtoken") ("0xrelayer") 6).1.gasless = some false :=
  ⟨by decide,
   (C4_sponsorship_decision_boundary boundaryChain ("0xuser") ("0xrecv") 5
      ("0xtoken") ("0xrelayer") 6).1 (by decide)⟩

/-- C5: in every funded sponsored send, the relayer's gas-advance
transaction is submitted strictly before the value transfer is built; the
value-transfer nonce is fetched after that submission with pending
transactions included and is the nonce the transfer carries; and no
submission or build precedes the advance. -/
theorem C5_sponsored_ordering (c : Chain) (fromAddr toAddr : String) (amount : ℚ)
    (tokenContract relayerAddr : String) (decimals : ℕ)
    (huser : c.balance fromAddr < c.gasPrice * 100000)
    (hfund : c.gasPrice * (21000 + 100000) * 13 / 10 ≤ c.balance relayerAddr) :
    ∃ evsPre evsMid advanceTx transferTx,
      (send_token_transaction_with_relayer_fallback c fromAddr toAddr amount
          tokenContract relayerAddr decimals).2 =
        evsPre ++ ChainEvent.sendRawTransaction advanceTx ::
          (evsMid ++ [ChainEvent.buildTx transferTx,
                      ChainEvent.sendRawTransaction transferTx]) ∧
      advanceTx.data = none ∧
      advanceTx.toAddr = fromAddr ∧
      advanceTx.value = c.gasPrice * (21000 + 100000) * 13 / 10 ∧
      transferTx.data = some (toAddr, toBaseUnits amount decimals) ∧
      transferTx.nonce = c.txCount fromAddr true ∧
      ChainEvent.getTransactionCount fromAddr true ∈ evsMid ∧
      (∀ tx, ChainEvent.sendRawTransaction tx ∉ evsPre) ∧
      (∀ tx, ChainEvent.buildTx tx ∉ evsPre) := by
  have hnot : ¬ (c.gasPrice * 100000 ≤ c.balance fromAddr) := not_le.mpr huser
  have hnot2 : ¬ (c.balance relayerAddr < c.gasPrice * (21000 + 100000) * 13 / 10) :=
    not_lt.mpr hfund
  refine ⟨[ChainEvent.getBalance fromAddr, ChainEvent.getGasPrice,
           ChainEvent.getBalance relayerAddr, ChainEvent.getGasPrice,
           ChainEvent.getTransactionCount relayerAddr false],
          [ChainEvent.getTransactionCount fromAddr true],
          { toAddr := fromAddr, value := c.gasPrice * (21000 + 100000) * 13 / 10,
            gas := 21000, gasPrice := c.gasPrice,
            nonce := c.txCount relayerAddr false, data := none },
          { toAddr := tokenContract, value := 0, gas := 100000,
            gasPrice := c.gasPrice, nonce := c.txCount fromAddr true,
            data := some (toAddr, toBaseUnits amount decimals) },
          ?_, rfl, rfl, rfl, rfl, rfl, ?_, ?_, ?_⟩
  · simp only [send_token_transaction_with_relayer_fallback, sendWithRelayerGas]
    rw [if_neg hnot, if_neg hnot2]
    rfl
  · simp
  · intro tx
    simp
  · intro tx
    simp

/-- C5 witness: the ordering statement at a concrete funded chain
(30 gwei, empty sender, 10¹⁹-wei relayer). -/
theorem C5_sponsored_ordering_witness :
    ∃ evsPre evsMid advanceTx transferTx,
      (send_token_transaction_with_relayer_fallback fundedRelayerChain ("0xuser")
          ("0xrecv") 5 ("0xtoken") ("0xrelayer") 6).2 =
        evsPre ++ ChainEvent.sendRawTransaction advanceTx ::
          (evsMid ++ [ChainEvent.buildTx transferTx,
                      ChainEvent.sendRawTransaction transferTx]) ∧
      advanceTx.data = none ∧
      advanceTx.toAddr = "0xuser" ∧
      advanceTx.value =
        fundedRelayerChain.gasPrice * (21000 + 100000) * 13 / 10 ∧
      transferTx.data = some ("0xrecv", toBaseUnits 5 6) ∧
      transferTx.nonce = fundedRelayerChain.txCount ("0xuser") true ∧
      ChainEvent.getTransactionCount ("0xuser") true ∈ evsMid ∧
      (∀ tx, ChainEvent.sendRawTransaction tx ∉ evsPre) ∧
      (∀ tx, ChainEvent.buildTx tx ∉ evsPre) :=
  C5_sponsored_ordering fundedRelayerChain ("0xuser") ("0xrecv") 5 ("0xtoken")
    ("0xrelayer") 6 (by decide) (by decide)

/-! ## Claims about the balance queries -/

/-- C10: `get_token_balance` and `get_matic_balance` are total and fail to
zero: whatever exception the underlying chain client raises, they return
exactly 0, indistinguishable from a genuinely empty account. -/
theorem C10_balance_queries_fail_to_zero (e : String) (decimals : ℕ) :
    get_token_balance (Except.error e) decimals = 0 ∧
    get_matic_balance (Except.error e) = 0 ∧
    get_token_balance (Except.error e) decimals =
      get_token_balance (Except.ok 0) decimals ∧
    get_matic_balance (Except.error e) = get_matic_balance (Except.ok 0) :=
  ⟨rfl, rfl, by simp [get_token_balance], by simp [get_matic_balance]⟩

/-- C10 witness: a concrete raised exception yields exactly zero from both
balance queries. -/
theorem C10_balance_queries_fail_to_zero_witness :
    get_token_balance (Except.error ("connection refused")) 6 = 0 ∧
    get_matic_balance (Except.error ("connection refused")) = 0 :=
  ⟨(C10_balance_queries_fail_to_zero ("connection refused") 6).1,
   (C10_balance_queries_fail_to_zero ("connection refused") 6).2.1⟩

/-! ## Claims about the send endpoint -/

/-- C9: whatever identifier form the recipient was given in — alias,
phone number or raw address — if the resolved destination equals the
sender's own wallet address case-insensitively, the send endpoint rejects
the request and performs none of the key-decryption, ledger-row-creation
or chain-submission effects.  The hypothesis `huniq` is the data model's
wallet-address uniqueness invariant (`Wallet.address` is declared
`unique=True`): no other user's wallet carries the sender's address. -/
theorem C9_self_transfer_rejected (db : DariDb) (toAddr dest senderAddr : String)
    (hsender : db.walletByUser db.currentUserId = some senderAddr)
    (hdest : resolvedDestination db toAddr = some dest)
    (hself : pyLower dest = pyLower senderAddr)
    (huniq : ∀ uid w, db.walletByUser uid = some w →
      pyLower w = pyLower senderAddr → uid = db.currentUserId) :
    (∃ err, (send_transaction db toAddr).1 = Except.error err) ∧
    (send_transaction db toAddr).2 = [] := by
  unfold send_transaction
  by_cases h1 : db.hasPinHash
  case neg =>
    rw [if_pos h1]
    exact ⟨⟨SendErr.pinNotSet, rfl⟩, rfl⟩
  case pos =>
    rw [if_neg (not_not_intro h1)]
    by_cases h2 : db.pinOk
    case neg =>
      rw [if_pos h2]
      exact ⟨⟨SendErr.invalidPin, rfl⟩, rfl⟩
    case pos =>
      rw [if_neg (not_not_intro h2)]
      simp only [hsender]
      unfold resolvedDestination at hdest
      by_cases hdari : isDariForm toAddr
      case pos =>
        rw [if_pos hdari] at hdest
        simp only [if_pos hdari, hdest, if_pos hself]
        exact ⟨⟨SendErr.selfTransfer, rfl⟩, trivial⟩
      case neg =>
        rw [if_neg hdari] at hdest
        simp only [if_neg hdari]
        by_cases hphone : pyStartsWith ("+") toAddr
        case pos =>
          rw [if_pos hphone] at hdest
          simp only [if_pos hphone]
          cases hu : db.userByPhone toAddr with
          | none =>
              rw [hu] at hdest
              simp at hdest
          | some uid =>
              rw [hu] at hdest
              simp only [Option.some_bind] at hdest
              simp only [hdest]
              rw [if_pos (huniq uid dest hdest hself)]
              exact ⟨⟨SendErr.selfTransfer, rfl⟩, rfl⟩
        case neg =>
          rw [if_neg hphone] at hdest
          simp only [if_neg hphone]
          have hta : toAddr = dest := by simpa using hdest
          subst hta
          rw [if_pos hself]
          exact ⟨⟨SendErr.selfTransfer, rfl⟩, rfl⟩

/-- C9 witness: a raw-address recipient differing from the sender's own
wallet address only in letter case is rejected with no effects. -/
theorem C9_self_transfer_rejected_witness :
    (∃ err, (send_transaction exampleSendDb ("0xABC")).1 = Except.error err) ∧
    (send_transaction exampleSendDb ("0xABC")).2 = [] :=
  C9_self_transfer_rejected exampleSendDb ("0xABC") ("0xABC") ("0xAbC")
    (by decide) (by decide) (by decide)
    (fun uid w hw _ => by
      simp only [exampleSendDb] at hw ⊢
      by_cases h : uid = 1
      · exact h
      · rw [if_neg h] at hw
        cases hw)

end Dari

